import Mathlib

/-!
# Verification of the `dodgems` bump allocator

Shallow embedding of `src/lib.rs` (crate `dodgems`): a single-threaded bump
allocator `BumpCar` over a fixed byte buffer.  The observable state of a
`BumpCar` is the length of its buffer (`pointer.len()`, fixed after
construction) and the cursor `position`; memory contents are never read by
the allocator, so they are not part of the model.  `usize` values are
modelled as `Nat`; the target is 64-bit, so `usize::MAX = 2^64 - 1` and
`isize::MAX = 2^63 - 1`, and `size_of::<usize>() = 8`.  Overflow is made
explicit exactly where the Rust code checks it (`checked_add`); the
additions inside `next_multiple` are guarded by its SAFETY contract
(`size + align` must not overflow), which the call sites establish, so they
are plain `Nat` additions.
-/

namespace Dodgems

/-- `usize::MAX` on the 64-bit target. -/
def USIZE_MAX : Nat := 2 ^ 64 - 1

/-- `isize::MAX` on the 64-bit target. -/
def ISIZE_MAX : Nat := 2 ^ 63 - 1

/-- `core::alloc::Layout`: a size and an alignment.  The Rust type
guarantees `align` is a power of two; theorems that depend on that take it
as a hypothesis (most do not: the code below never uses the guarantee). -/
structure Layout where
  size : Nat
  align : Nat
deriving DecidableEq, Repr

/-- `next_multiple` from src/lib.rs lines 55-58:
`let am = align - 1; (size + am) ^ am`.  Note the `^` in the source is XOR
(Rust `^`), embedded as `^^^`; this is NOT the usual round-up mask
`(size + am) & !am`. -/
def next_multiple (size align : Nat) : Nat :=
  let am := align - 1
  (size + am) ^^^ am

/-- What the spec describes: the smallest multiple of `align` that is
greater than or equal to `n` (for `align > 0`). -/
def smallestMultipleGE (n align : Nat) : Nat :=
  align * ((n + (align - 1)) / align)

/-- Observable state of a `BumpCar`: `pointer_len` is `self.pointer.len()`
(the buffer length handed out by the backing allocator, fixed for the
lifetime of the arena) and `position` is the `Cell<usize>` cursor. -/
structure BumpCar where
  pointer_len : Nat
  position : Nat
deriving DecidableEq, Repr

/-- `BumpCar::capacity` (lib.rs 115-117): `self.pointer.len()`. -/
def capacity (s : BumpCar) : Nat := s.pointer_len

/-- `BumpCar::remaining_capacity` (lib.rs 127-129):
`self.capacity() - self.position.get()` (`usize` subtraction; the code
relies on `position ≤ capacity`, and `Nat` subtraction truncates the same
way the debug-mode check would demand). -/
def remaining_capacity (s : BumpCar) : Nat := capacity s - s.position

/-- `BumpCar::can_allocate` (lib.rs 133-143): round the cursor up with
`next_multiple`, `checked_add` the size, compare against the buffer
length.  `checked_add` failing (sum exceeding `usize::MAX`) yields
`false`. -/
def can_allocate (s : BumpCar) (layout : Layout) : Bool :=
  let closest_align := next_multiple s.position layout.align
  if closest_align + layout.size > USIZE_MAX then
    false
  else
    closest_align + layout.size ≤ s.pointer_len

/-- `BumpCar::reset` (lib.rs 149-151): `self.position.set(0)`. -/
def reset (s : BumpCar) : BumpCar := { s with position := 0 }

/-- `BumpCar::new_in` (lib.rs 95-112).  The backing allocator is a
parameter `alloc_fn : Layout → Option Nat` returning the length of the
granted block (Rust's `Allocator::allocate` returns a `NonNull<[u8]>`
whose length is what `capacity()` later reports), or `none` for
`AllocError`.  The code rejects the capacity when it, or
`next_multiple(capacity, size_of::<usize>())`, exceeds `isize::MAX`;
otherwise it requests `Layout { size: capacity, align: 8 }` from the
backing allocator, propagates failure, and starts the cursor at 0. -/
def new_in (cap : Nat) (alloc_fn : Layout → Option Nat) : Option BumpCar :=
  if cap > ISIZE_MAX ∨ next_multiple cap 8 > ISIZE_MAX then
    none
  else
    match alloc_fn ⟨cap, 8⟩ with
    | none => none
    | some len => some ⟨len, 0⟩

/-- `<&BumpCar as Allocator>::allocate` (lib.rs 182-201).  Returns the
granted block as (start offset into the buffer, slice length) together
with the updated arena state, or `none` for `AllocError`.  The only
mutation in the source, `self.position.set(new_pos)`, happens after both
failure returns, which the embedding reflects by producing a new state
only on success. -/
def allocate (s : BumpCar) (layout : Layout) :
    Option ((Nat × Nat) × BumpCar) :=
  let closest_align := next_multiple s.position layout.align
  if closest_align + layout.size > USIZE_MAX then
    none
  else
    let new_pos := closest_align + layout.size
    if new_pos > s.pointer_len then
      none
    else
      some ((closest_align, layout.size), { s with position := new_pos })

/-- `<&BumpCar as Allocator>::deallocate` (lib.rs 204): an empty body;
the state passes through untouched. -/
def deallocate (s : BumpCar) (_ptr : Nat) (_layout : Layout) : BumpCar := s

/-- `<&BumpCar as Allocator>::shrink` (lib.rs 210-225).  `ptr` is the base
offset of the previously granted block.  The source's `debug_assert!`
(`new_layout.size() ≤ old_layout.size()`) is a caller precondition taken
as a hypothesis by the theorems.  The body never touches `self.position`;
the embedding returns the state alongside the result to make that frame
fact statable. -/
def shrink (s : BumpCar) (ptr : Nat) (old_layout new_layout : Layout) :
    Option (Nat × Nat) × BumpCar :=
  if old_layout.align < new_layout.align then
    (none, s)
  else
    (some (ptr, new_layout.size), s)

/-- Modelled from the spec: `checkpoint()` is exercised by the
repository's own tests (tests/tests.rs, `allocate_checkpoint`) but its
implementation is not under src/.  Spec §4.8: on an arena (or checkpoint)
with free region `[cursor, C)` it creates a new independent entity with
its own cursor starting at 0 over a private capacity of `C - cursor`, and
the parent's cursor is immediately set to `C`.  Returns (parent after the
call, new checkpoint). -/
def checkpoint (s : BumpCar) : BumpCar × BumpCar :=
  ({ s with position := s.pointer_len },
   { pointer_len := remaining_capacity s, position := 0 })

/-- The state-mutating operations of the allocator surface, for stating
reachability/invariant claims. -/
inductive Op where
  | alloc (layout : Layout)
  | dealloc (ptr : Nat) (layout : Layout)
  | shrinkOp (ptr : Nat) (old_layout new_layout : Layout)
  | resetOp
deriving DecidableEq, Repr

/-- Effect of one operation on the arena state.  A failed `allocate`
leaves the state as it was (the source mutates `position` only on the
success path). -/
def step (s : BumpCar) : Op → BumpCar
  | .alloc layout =>
    match allocate s layout with
    | none => s
    | some (_, s') => s'
  | .dealloc ptr layout => deallocate s ptr layout
  | .shrinkOp ptr old_layout new_layout => (shrink s ptr old_layout new_layout).2
  | .resetOp => reset s

/-- Run a sequence of operations. -/
def run (s : BumpCar) (ops : List Op) : BumpCar := ops.foldl step s

/-- A freshly constructed arena whose buffer has length `c`:
cursor 0 (lib.rs 107-111). -/
def fresh (c : Nat) : BumpCar := ⟨c, 0⟩

/-! ## Helper lemmas -/

/-- `allocate` unfolded into its two checks and success result. -/
theorem allocate_unfold (s : BumpCar) (layout : Layout) :
    allocate s layout =
      if next_multiple s.position layout.align + layout.size > USIZE_MAX then
        none
      else if next_multiple s.position layout.align + layout.size > s.pointer_len then
        none
      else
        some ((next_multiple s.position layout.align, layout.size),
          { s with position := next_multiple s.position layout.align + layout.size }) := rfl

/-- `can_allocate` unfolded into its two checks. -/
theorem can_allocate_unfold (s : BumpCar) (layout : Layout) :
    can_allocate s layout =
      if next_multiple s.position layout.align + layout.size > USIZE_MAX then
        false
      else
        decide (next_multiple s.position layout.align + layout.size ≤ s.pointer_len) := rfl

/-- XOR with the low mask 7 does not disturb the bits above the low three:
dividing by 8 commutes with `· ^^^ 7`. -/
theorem xor_seven_div_eight (y : Nat) : (y ^^^ 7) / 8 = y / 8 := by
  have h8 : ∀ x : Nat, x / 8 = x / 2 / 2 / 2 := by
    intro x
    rw [Nat.div_div_eq_div_mul, Nat.div_div_eq_div_mul]
  rw [h8, Nat.xor_div_two, Nat.xor_div_two, Nat.xor_div_two, ← h8]
  norm_num

/-- `y ^^^ 7` splits into the untouched high part `8 * (y / 8)` and a low
part strictly below 8. -/
theorem xor_seven_decomp (y : Nat) :
    y ^^^ 7 = 8 * (y / 8) + (y ^^^ 7) % 8 ∧ (y ^^^ 7) % 8 < 8 := by
  constructor
  · conv_lhs => rw [← Nat.div_add_mod (y ^^^ 7) 8]
    rw [xor_seven_div_eight]
  · exact Nat.mod_lt _ (by norm_num)

/-- On the `isize::MAX` threshold, the source's XOR-based
`next_multiple (·, 8)` and the spec's round-up to a multiple of 8 agree:
one exceeds `isize::MAX` exactly when the other does (because the XOR only
perturbs the low three bits, and `isize::MAX + 1` is a multiple of 8). -/
theorem next_multiple_eight_gt_iff (c : Nat) :
    next_multiple c 8 > ISIZE_MAX ↔ smallestMultipleGE c 8 > ISIZE_MAX := by
  have hd := xor_seven_decomp (c + 7)
  have hnm : next_multiple c 8 = (c + 7) ^^^ 7 := rfl
  have hsm : smallestMultipleGE c 8 = 8 * ((c + 7) / 8) := rfl
  have hI : ISIZE_MAX = 9223372036854775807 := by norm_num [ISIZE_MAX]
  rw [hnm, hsm, hI]
  omega

/-- `new_in` unfolded. -/
theorem new_in_unfold (c : Nat) (f : Layout → Option Nat) :
    new_in c f =
      if c > ISIZE_MAX ∨ next_multiple c 8 > ISIZE_MAX then
        none
      else
        match f ⟨c, 8⟩ with
        | none => none
        | some len => some ⟨len, 0⟩ := rfl

/-- A successfully constructed arena starts with its cursor at 0. -/
theorem new_in_some_position (c : Nat) (f : Layout → Option Nat) (s : BumpCar)
    (h : new_in c f = some s) : s.position = 0 := by
  rw [new_in_unfold] at h
  by_cases hc : c > ISIZE_MAX ∨ next_multiple c 8 > ISIZE_MAX
  · rw [if_pos hc] at h
    exact Option.noConfusion h
  · rw [if_neg hc] at h
    cases hf : f ⟨c, 8⟩ with
    | none =>
      rw [hf] at h
      exact Option.noConfusion h
    | some len =>
      rw [hf] at h
      injection h with h2
      rw [← h2]

/-! ## Claims -/

/-- C1: the claim says the granted start offset is the smallest multiple
of `align` that is ≥ the cursor.  The source computes it as
`(cursor + (align-1)) ^ (align-1)` with XOR where the round-up mask
`& !(align-1)` was intended: at cursor 1, align 2 it yields 3 — not the
smallest multiple 2, and not even 2-aligned.  This contradicts
`next_multiple`'s own doc comment ("Returns the next multiple of
`align`...") and the repository's test `allocate_vary_alignment`
(tests/tests.rs lines 83-100), which after allocating (1,1) then (2,2) on
a 24-byte arena expects remaining capacity 20 where the code produces
19. -/
theorem c1_aligned_start_is_not_round_up :
    next_multiple 1 2 = 3 ∧
    smallestMultipleGE 1 2 = 2 ∧
    next_multiple 1 2 % 2 = 1 ∧
    run (fresh 24) [Op.alloc ⟨1, 1⟩] = ⟨24, 1⟩ ∧
    allocate ⟨24, 1⟩ ⟨2, 2⟩ = some ((3, 2), ⟨24, 5⟩) ∧
    remaining_capacity (run (fresh 24) [Op.alloc ⟨1, 1⟩, Op.alloc ⟨2, 2⟩]) = 19 := by
  decide

/-- C2: `checkpoint()` (modelled from the spec; its implementation is not
under src/): the parent's remaining capacity drops to 0, the checkpoint's
capacity equals the parent's pre-checkpoint remaining capacity, its cursor
starts at 0, and checkpointing an exhausted arena/checkpoint yields
capacity 0. -/
theorem c2_checkpoint_contract (s : BumpCar) :
    remaining_capacity (checkpoint s).1 = 0 ∧
    capacity (checkpoint s).2 = remaining_capacity s ∧
    (checkpoint s).2.position = 0 ∧
    (remaining_capacity s = 0 → capacity (checkpoint s).2 = 0) := by
  refine ⟨?_, rfl, rfl, fun h => h⟩
  simp [remaining_capacity, capacity, checkpoint]

/-- C2 witness: a parent with capacity 256 and cursor 128, and an
exhausted arena with capacity 128 and cursor 128. -/
theorem c2_checkpoint_contract_witness :
    remaining_capacity (checkpoint (⟨256, 128⟩ : BumpCar)).1 = 0 ∧
    capacity (checkpoint (⟨256, 128⟩ : BumpCar)).2 = 128 ∧
    capacity (checkpoint (⟨128, 128⟩ : BumpCar)).2 = 0 :=
  ⟨(c2_checkpoint_contract ⟨256, 128⟩).1,
   (c2_checkpoint_contract ⟨256, 128⟩).2.1,
   (c2_checkpoint_contract ⟨128, 128⟩).2.2.2 (by decide)⟩

/-- C3: `allocate` fails — returning the failure value and leaving the
arena state exactly as before — whenever `aligned_offset + size` would
overflow `usize` or exceeds the buffer length; a request whose computed
end equals the capacity succeeds (advancing the cursor to the capacity),
and one whose computed end is one byte beyond fails without mutating
state.  (`capacity s ≤ USIZE_MAX` holds of every real arena, since the
construction bounds the buffer by `isize::MAX`.) -/
theorem c3_allocate_failure_and_boundary (s : BumpCar) (layout : Layout) :
    (allocate s layout = none → step s (.alloc layout) = s) ∧
    (next_multiple s.position layout.align + layout.size > USIZE_MAX →
      allocate s layout = none) ∧
    (next_multiple s.position layout.align + layout.size > capacity s →
      allocate s layout = none) ∧
    (capacity s ≤ USIZE_MAX →
      next_multiple s.position layout.align + layout.size = capacity s →
      allocate s layout =
        some ((next_multiple s.position layout.align, layout.size),
          { s with position := capacity s })) ∧
    (next_multiple s.position layout.align + layout.size = capacity s + 1 →
      allocate s layout = none ∧ step s (.alloc layout) = s) := by
  have hcap : capacity s = s.pointer_len := rfl
  refine ⟨fun h => by simp [step, h], ?_, ?_, ?_, ?_⟩
  · intro h
    rw [allocate_unfold, if_pos h]
  · intro h
    rw [hcap] at h
    by_cases h1 : next_multiple s.position layout.align + layout.size > USIZE_MAX
    · rw [allocate_unfold, if_pos h1]
    · rw [allocate_unfold, if_neg h1, if_pos h]
  · intro hle h
    rw [hcap] at h
    rw [hcap] at hle
    have h1 : ¬ next_multiple s.position layout.align + layout.size > USIZE_MAX := by
      omega
    have h2 : ¬ next_multiple s.position layout.align + layout.size > s.pointer_len := by
      omega
    rw [allocate_unfold, if_neg h1, if_neg h2, h]
    rfl
  · intro h
    rw [hcap] at h
    have hnone : allocate s layout = none := by
      by_cases h1 : next_multiple s.position layout.align + layout.size > USIZE_MAX
      · rw [allocate_unfold, if_pos h1]
      · rw [allocate_unfold, if_neg h1, if_pos (by omega :
          next_multiple s.position layout.align + layout.size > s.pointer_len)]
    exact ⟨hnone, by simp [step, hnone]⟩

/-- C3 witness: on an 8-byte arena, a request whose computed end equals
the capacity succeeds; with cursor 7, a 2-byte request (computed end 9 =
capacity + 1) fails and the state is unchanged. -/
theorem c3_allocate_failure_and_boundary_witness :
    allocate (⟨8, 0⟩ : BumpCar) ⟨8, 1⟩ = some ((0, 8), ⟨8, 8⟩) ∧
    allocate (⟨8, 7⟩ : BumpCar) ⟨2, 1⟩ = none ∧
    step (⟨8, 7⟩ : BumpCar) (.alloc ⟨2, 1⟩) = ⟨8, 7⟩ :=
  ⟨(c3_allocate_failure_and_boundary ⟨8, 0⟩ ⟨8, 1⟩).2.2.2.1 (by decide) (by decide),
   ((c3_allocate_failure_and_boundary ⟨8, 7⟩ ⟨2, 1⟩).2.2.2.2 (by decide)).1,
   ((c3_allocate_failure_and_boundary ⟨8, 7⟩ ⟨2, 1⟩).2.2.2.2 (by decide)).2⟩

/-- C4 counterexample: the claim says a zero-size request with any
power-of-two alignment succeeds in every arena state.  On an arena of
capacity 1 whose cursor is 1 — reached by one successful 1-byte
allocation — the zero-size request with alignment 2 fails: the code's
aligned offset `(1 + 1) ^^^ 1 = 3` exceeds the capacity (with the
intended round-up mask the aligned offset would be 2 and the request
would still fail). -/
theorem c4_zero_size_counterexample :
    run (fresh 1) [Op.alloc ⟨1, 1⟩] = ⟨1, 1⟩ ∧
    allocate ⟨1, 1⟩ ⟨0, 2⟩ = none := by
  decide

/-- C4 amended: a zero-size request with alignment 1 (which needs no
padding) always succeeds, even when the remaining capacity is 0: it
returns offset = cursor — in bounds or exactly at the buffer's end — with
length 0, and leaves the cursor (and the whole state) unchanged.
Zero-size requests with a larger alignment can fail, when the aligned
offset overshoots the capacity. -/
theorem c4_zero_size_align_one (s : BumpCar)
    (hpos : s.position ≤ capacity s) (hcap : capacity s ≤ USIZE_MAX) :
    allocate s ⟨0, 1⟩ = some ((s.position, 0), s) ∧
    s.position ≤ capacity s := by
  have hcap2 : capacity s = s.pointer_len := rfl
  refine ⟨?_, hpos⟩
  have hnm : next_multiple s.position 1 = s.position := by
    simp [next_multiple]
  rw [allocate_unfold]
  simp only [hnm]
  rw [hcap2] at hpos hcap
  split_ifs with h1 h2
  · omega
  · omega
  · rfl

/-- C4 witness: a zero-capacity arena (remaining capacity 0) still grants
the zero-size, align-1 request at offset 0 without moving the cursor. -/
theorem c4_zero_size_align_one_witness :
    allocate (⟨0, 0⟩ : BumpCar) ⟨0, 1⟩ = some ((0, 0), ⟨0, 0⟩) ∧
    remaining_capacity (⟨0, 0⟩ : BumpCar) = 0 :=
  ⟨(c4_zero_size_align_one ⟨0, 0⟩ (by decide) (by decide)).1, by decide⟩

/-- C5: `new_in` rejects a capacity that — or whose round-up to a
multiple of the pointer size (8 bytes) — exceeds `isize::MAX`; otherwise
the outcome is exactly that of the backing allocator on the request
`(size = capacity, align = 8)`: its failure is propagated unchanged, and
its granted block becomes an arena with cursor 0.  (The source's check
uses the XOR-based `next_multiple`, which agrees with the spec's round-up
on the `isize::MAX` threshold by `next_multiple_eight_gt_iff`.) -/
theorem c5_new_in_validation (c : Nat) (f : Layout → Option Nat) :
    ((c > ISIZE_MAX ∨ smallestMultipleGE c 8 > ISIZE_MAX) → new_in c f = none) ∧
    (c ≤ ISIZE_MAX → smallestMultipleGE c 8 ≤ ISIZE_MAX →
      new_in c f =
        match f ⟨c, 8⟩ with
        | none => none
        | some len => some ⟨len, 0⟩) := by
  constructor
  · intro h
    have hc : c > ISIZE_MAX ∨ next_multiple c 8 > ISIZE_MAX := by
      rcases h with h | h
      · exact Or.inl h
      · exact Or.inr ((next_multiple_eight_gt_iff c).2 h)
    rw [new_in_unfold, if_pos hc]
  · intro h1 h2
    have hnm : ¬ next_multiple c 8 > ISIZE_MAX :=
      (next_multiple_eight_gt_iff c).not.2 (by omega)
    have hc : ¬ (c > ISIZE_MAX ∨ next_multiple c 8 > ISIZE_MAX) := by
      push_neg
      omega
    rw [new_in_unfold, if_neg hc]

/-- C5 witness: capacity 16 with a backing allocator granting a 16-byte
block yields an arena of capacity 16 with cursor 0. -/
theorem c5_new_in_validation_witness :
    new_in 16 (fun _ => some 16) = some ⟨16, 0⟩ :=
  (c5_new_in_validation 16 (fun _ => some 16)).2 (by decide) (by decide)

/-- C6: `can_allocate` returns `true` exactly when `allocate` in the same
state would succeed: the two run the identical computation
(`next_multiple` round-up, `checked_add`, comparison with the buffer
length).  In the source both only read the `Cell` cursor, never write it;
the embedding reflects this by typing them as functions of the state that
return no updated state, so repeated calls cannot change any subsequent
outcome. -/
theorem c6_can_allocate_iff_allocate (s : BumpCar) (layout : Layout) :
    can_allocate s layout = true ↔ (allocate s layout).isSome = true := by
  rw [can_allocate_unfold, allocate_unfold]
  by_cases h1 : next_multiple s.position layout.align + layout.size > USIZE_MAX
  · rw [if_pos h1, if_pos h1]
    simp
  · rw [if_neg h1, if_neg h1]
    by_cases h2 : next_multiple s.position layout.align + layout.size > s.pointer_len
    · rw [if_pos h2]
      simp
      omega
    · rw [if_neg h2]
      simp
      omega

/-- C7: for a previously granted block and a new layout whose size does
not exceed the old one (the source's `debug_assert!` precondition),
`shrink` succeeds exactly when the new alignment does not exceed the old
layout's alignment; on success it returns the same base address with the
truncated length, and in every case (the source's body writes nothing) the
arena state — and hence the granted block's data — is untouched. -/
theorem c7_shrink_contract (s : BumpCar) (ptr : Nat)
    (old_layout new_layout : Layout)
    (_hsize : new_layout.size ≤ old_layout.size) :
    ((shrink s ptr old_layout new_layout).1.isSome = true ↔
      new_layout.align ≤ old_layout.align) ∧
    (new_layout.align ≤ old_layout.align →
      (shrink s ptr old_layout new_layout).1 = some (ptr, new_layout.size)) ∧
    (shrink s ptr old_layout new_layout).2 = s := by
  refine ⟨?_, ?_, ?_⟩
  · by_cases h : old_layout.align < new_layout.align
    · have hns : ¬ new_layout.align ≤ old_layout.align := by omega
      simp [shrink, h, hns]
    · have hs : new_layout.align ≤ old_layout.align := by omega
      simp [shrink, h, hs]
  · intro hle
    have h : ¬ old_layout.align < new_layout.align := by omega
    simp [shrink, h]
  · by_cases h : old_layout.align < new_layout.align
    · simp [shrink, h]
    · simp [shrink, h]

/-- C7 witness: shrinking a block at offset 0 from layout (4, 4) to
(2, 2) succeeds with the same base and length 2, leaving the state as it
was. -/
theorem c7_shrink_contract_witness :
    (shrink (⟨8, 4⟩ : BumpCar) 0 ⟨4, 4⟩ ⟨2, 2⟩).1 = some (0, 2) ∧
    (shrink (⟨8, 4⟩ : BumpCar) 0 ⟨4, 4⟩ ⟨2, 2⟩).2 = ⟨8, 4⟩ :=
  ⟨(c7_shrink_contract ⟨8, 4⟩ 0 ⟨4, 4⟩ ⟨2, 2⟩ (by decide)).2.1 (by decide),
   (c7_shrink_contract ⟨8, 4⟩ 0 ⟨4, 4⟩ ⟨2, 2⟩ (by decide)).2.2⟩

/-- C8: `reset` sets the cursor to 0 and keeps the buffer, so the reset
arena is, state for state, a freshly constructed arena of the same
capacity: its capacity and remaining capacity match, and every subsequent
sequence of operations produces identical outcomes and offsets.  (Memory
contents are not part of the allocator's state, which is the "modulo
stale memory" proviso.)  A fresh arena really is `fresh`: any arena
produced by `new_in` has cursor 0. -/
theorem c8_reset_behaves_like_fresh (s : BumpCar) (c : Nat)
    (f : Layout → Option Nat) :
    reset s = fresh (capacity s) ∧
    capacity (reset s) = capacity s ∧
    remaining_capacity (reset s) = capacity s ∧
    (∀ ops : List Op, run (reset s) ops = run (fresh (capacity s)) ops) ∧
    (∀ t : BumpCar, new_in c f = some t → t = fresh (capacity t)) := by
  have h1 : reset s = fresh (capacity s) := rfl
  refine ⟨h1, rfl, by simp [remaining_capacity, capacity, reset],
    fun ops => by rw [h1], ?_⟩
  intro t ht
  have hp := new_in_some_position c f t ht
  cases t with
  | mk len pos =>
    simp only at hp
    rw [hp]
    rfl

/-- C8 witness: resetting a capacity-4 arena with cursor 3 gives the
same allocation outcome as a fresh capacity-4 arena, and `new_in` with a
backing allocator granting 4 bytes yields exactly the fresh arena. -/
theorem c8_reset_behaves_like_fresh_witness :
    run (reset (⟨4, 3⟩ : BumpCar)) [Op.alloc ⟨4, 1⟩] =
      run (fresh 4) [Op.alloc ⟨4, 1⟩] ∧
    (⟨4, 0⟩ : BumpCar) = fresh 4 :=
  ⟨(c8_reset_behaves_like_fresh ⟨4, 3⟩ 4 (fun _ => some 4)).2.2.2.1
      [Op.alloc ⟨4, 1⟩],
   (c8_reset_behaves_like_fresh ⟨4, 3⟩ 4 (fun _ => some 4)).2.2.2.2
      ⟨4, 0⟩ (by decide)⟩

/-- C9: the invariant `position ≤ capacity` holds in every state `new_in`
produces (the cursor starts at 0) and is preserved by every operation
(`allocate` commits a new cursor only after checking it against the
buffer length; `deallocate` and `shrink` never write it; `reset` zeroes
it); consequently `remaining_capacity = capacity - cursor` holds as exact
integer arithmetic, with no underflow. -/
theorem c9_cursor_invariant :
    (∀ (c : Nat) (f : Layout → Option Nat) (s : BumpCar),
      new_in c f = some s → s.position ≤ capacity s) ∧
    (∀ (s : BumpCar) (op : Op),
      s.position ≤ capacity s → (step s op).position ≤ capacity (step s op)) ∧
    (∀ s : BumpCar, s.position ≤ capacity s →
      (remaining_capacity s : Int) = (capacity s : Int) - (s.position : Int)) := by
  refine ⟨?_, ?_, ?_⟩
  · intro c f s h
    rw [new_in_some_position c f s h]
    exact Nat.zero_le _
  · intro s op hpos
    cases op with
    | alloc layout =>
      rcases hal : allocate s layout with _ | ⟨r, s2⟩
      · simpa [step, hal] using hpos
      · have h2 : s2.position ≤ s2.pointer_len := by
          rw [allocate_unfold] at hal
          by_cases h1 : next_multiple s.position layout.align + layout.size >
              USIZE_MAX
          · rw [if_pos h1] at hal
            exact Option.noConfusion hal
          · rw [if_neg h1] at hal
            by_cases hb : next_multiple s.position layout.align + layout.size >
                s.pointer_len
            · rw [if_pos hb] at hal
              exact Option.noConfusion hal
            · rw [if_neg hb] at hal
              injection hal with hal2
              rw [Prod.mk.injEq] at hal2
              rw [← hal2.2]
              show next_multiple s.position layout.align + layout.size ≤
                s.pointer_len
              omega
        simpa [step, hal, capacity] using h2
    | dealloc ptr layout => exact hpos
    | shrinkOp ptr old_layout new_layout =>
      have hsh : (shrink s ptr old_layout new_layout).2 = s := by
        by_cases h : old_layout.align < new_layout.align
        · simp [shrink, h]
        · simp [shrink, h]
      simpa [step, hsh] using hpos
    | resetOp => simp [step, reset, capacity]
  · intro s h
    simp only [remaining_capacity, capacity] at h ⊢
    omega

/-- C9 witness: the invariant at a freshly constructed capacity-4 arena,
after one allocation step from cursor 2, and the exact remaining-capacity
arithmetic at that state. -/
theorem c9_cursor_invariant_witness :
    ((⟨4, 0⟩ : BumpCar).position ≤ capacity (⟨4, 0⟩ : BumpCar)) ∧
    ((step (⟨4, 2⟩ : BumpCar) (Op.alloc ⟨1, 1⟩)).position ≤
      capacity (step (⟨4, 2⟩ : BumpCar) (Op.alloc ⟨1, 1⟩))) ∧
    ((remaining_capacity (⟨4, 2⟩ : BumpCar) : Int) =
      (capacity (⟨4, 2⟩ : BumpCar) : Int) - ((⟨4, 2⟩ : BumpCar).position : Int)) :=
  ⟨c9_cursor_invariant.1 4 (fun _ => some 4) ⟨4, 0⟩ (by decide),
   c9_cursor_invariant.2.1 ⟨4, 2⟩ (Op.alloc ⟨1, 1⟩) (by decide),
   c9_cursor_invariant.2.2 ⟨4, 2⟩ (by decide)⟩

/-- C10: `deallocate` is the identity on the arena state for every
pointer and layout (its body is empty), and `shrink` — whether it
succeeds or fails — never changes the cursor or the capacity, so
`capacity` and `remaining_capacity` are exactly what they were before
either call; no individual allocation is ever reclaimed by them. -/
theorem c10_deallocate_shrink_frame (s : BumpCar) (ptr ptr2 : Nat)
    (layout old_layout new_layout : Layout) :
    deallocate s ptr layout = s ∧
    (shrink s ptr2 old_layout new_layout).2 = s ∧
    capacity (deallocate s ptr layout) = capacity s ∧
    remaining_capacity (deallocate s ptr layout) = remaining_capacity s ∧
    capacity (shrink s ptr2 old_layout new_layout).2 = capacity s ∧
    remaining_capacity (shrink s ptr2 old_layout new_layout).2 =
      remaining_capacity s := by
  have hsh : (shrink s ptr2 old_layout new_layout).2 = s := by
    by_cases h : old_layout.align < new_layout.align
    · simp [shrink, h]
    · simp [shrink, h]
  exact ⟨rfl, hsh, rfl, rfl, by rw [hsh], by rw [hsh]⟩

end Dodgems
